import Mathlib

/-!
Verification of the PyChess rules engine (board.py, chess.py, pieces.py)
against its natural-language specification.

The Python classes are shallowly embedded as follows:
* Piece objects become `PieceSt` records; object identity (Python references
  shared between the board grid, the colour registries and the king
  references) is modelled by a numeric id: the board stores ids, and a
  store `pieces : Nat → Option PieceSt` holds each piece's mutable state.
* `Board` becomes `BoardSt` (grid, colour registries, king references);
  `Game` / `BoardManager` become `GameSt` (board plus `player_to_move`).
* Methods that raise become `Except`- or `Option`-valued functions; the
  error type distinguishes the four request-level errors of exceptions.py,
  with `runtime` standing for any other uncaught Python exception
  (AttributeError, AssertionError, StopIteration, ...).
* Board read access performed from inside piece code
  (`self._board.get_piece(x, y)`) is modelled as a total lookup returning
  `none` for an empty or out-of-storage square, which is exactly how the
  repository's own piece tests stub the board
  (`mock_board.get_piece.return_value = None`); the raising range guard of
  the public `Board.get_piece` is modelled where that public method itself
  is the subject (`BoardManager.move_piece`).
* Python's negative-list-index wraparound is not modelled; the grid is a
  total function on `Int` coordinates.

Methods that the source calls but does not define (`can_reach`,
`can_attack`, `Board.move_piece(piece, x, y)`, `Board.get_pieces`,
`Board.get_piece(fields=...)`) are modelled from the specification; each
such definition carries a doc comment starting `Modelled from the spec:`.
Everything else is translated directly from the Python source.
-/

namespace PyChess

inductive Color where
  | white
  | black
deriving DecidableEq, Repr

/-- WHITE/BLACK opponent, as in `Piece.opp_color`. -/
def Color.opp : Color → Color
  | .white => .black
  | .black => .white

inductive Kind where
  | king
  | queen
  | rook
  | bishop
  | knight
  | pawn
deriving DecidableEq, Repr

/-- State of one piece object: kind/colour/coordinates plus the mutable
flags `King._castle_available` / `Rook._can_castle` (both mapped to
`castleAvailable`) and `Pawn._en_passant` (mapped to `enPassant`).
Constructors initialise `castleAvailable := true`, `enPassant := false`. -/
structure PieceSt where
  kind : Kind
  color : Color
  x : Int
  y : Int
  castleAvailable : Bool := true
  enPassant : Bool := false
deriving DecidableEq, Repr

/-- Board state: the 8×8 grid (`Board.fields`, storing piece ids), the two
colour registries (`Board.white_pieces` / `Board.black_pieces`) and the two
king references. -/
structure BoardSt where
  fields : Int → Int → Option Nat
  pieces : Nat → Option PieceSt
  whitePieces : List Nat
  blackPieces : List Nat
  whiteKing : Option Nat
  blackKing : Option Nat

/-- `Game` (chess.py) / `BoardManager` (board.py): a board plus
`player_to_move`. -/
structure GameSt where
  board : BoardSt
  playerToMove : Color

/-- Pointwise update of the grid. -/
def fupd (f : Int → Int → Option Nat) (x y : Int) (v : Option Nat) :
    Int → Int → Option Nat :=
  fun a b => if a = x ∧ b = y then v else f a b

/-- Pointwise update of the piece store. -/
def pupd (f : Nat → Option PieceSt) (i : Nat) (v : Option PieceSt) :
    Nat → Option PieceSt :=
  fun j => if j = i then v else f j

/-- The piece (if any) standing on a square: grid lookup dereferenced
through the store.  This is the total board view the piece code reads
through (see the module comment). -/
def occ (b : BoardSt) (x y : Int) : Option PieceSt :=
  match b.fields x y with
  | none => none
  | some i => b.pieces i

/-- The registry of a colour, dereferenced through the store. -/
def registry (b : BoardSt) (c : Color) : List Nat :=
  match c with
  | .white => b.whitePieces
  | .black => b.blackPieces

/-- Modelled from the spec: `Board.get_pieces(color=...)` — the iteration
over all pieces of one colour, which the source calls in
`Piece.check_move` and `King.can_castle` but neither Board draft defines;
per §4.1/§6 it enumerates the colour's registry. -/
def getPieces (b : BoardSt) (c : Color) : List PieceSt :=
  (registry b c).filterMap b.pieces

/-- Python `range(a, b)` (ascending, `b` excluded). -/
def intRangeAsc (a b : Int) : List Int :=
  (List.range (b - a).toNat).map (fun i => a + (i : Int))

/-- Python `range(a, -1, -1)` (descending from `a` down to `0`). -/
def intRangeDesc (a : Int) : List Int :=
  (List.range (a + 1).toNat).map (fun i => a - (i : Int))

/-- The `check_and_add` scan of both movement mixins: walk the listed
squares in order; an empty square is collected and the scan continues; the
first occupied square is collected when it holds an opponent piece and the
scan stops; a same-colour square stops the scan uncollected. -/
def scanRay (o : Int → Int → Option PieceSt) (c : Color) :
    List (Int × Int) → List (Int × Int)
  | [] => []
  | (x, y) :: rest =>
    match o x y with
    | none => (x, y) :: scanRay o c rest
    | some p => if p.color ≠ c then [(x, y)] else []

/-- `LineMovementMixin._possible_moves`: the four orthogonal scans
`range(x-1, -1, -1)`, `range(x+1, 8)`, `range(y-1, -1, -1)`,
`range(y+1, 8)` — note the literal `0`-to-`7` loop bounds. -/
def linePossibleMoves (o : Int → Int → Option PieceSt) (c : Color)
    (sx sy : Int) : List (Int × Int) :=
  scanRay o c ((intRangeDesc (sx - 1)).map (fun x => (x, sy))) ++
  scanRay o c ((intRangeAsc (sx + 1) 8).map (fun x => (x, sy))) ++
  scanRay o c ((intRangeDesc (sy - 1)).map (fun y => (sx, y))) ++
  scanRay o c ((intRangeAsc (sy + 1) 8).map (fun y => (sx, y)))

/-- `DiagonalMovementMixin._possible_moves`: the four zipped diagonal
scans, with the same literal `0`-to-`7` bounds. -/
def diagPossibleMoves (o : Int → Int → Option PieceSt) (c : Color)
    (sx sy : Int) : List (Int × Int) :=
  scanRay o c ((intRangeAsc (sx + 1) 8).zip (intRangeAsc (sy + 1) 8)) ++
  scanRay o c ((intRangeAsc (sx + 1) 8).zip (intRangeDesc (sy - 1))) ++
  scanRay o c ((intRangeDesc (sx - 1)).zip (intRangeAsc (sy + 1) 8)) ++
  scanRay o c ((intRangeDesc (sx - 1)).zip (intRangeDesc (sy - 1)))

/-- `Pawn._forward`: `1` for White, `-1` for Black. -/
def pawnForward (c : Color) : Int :=
  if c = .white then 1 else -1

/-- `Pawn._starting_rank`: the literal constants `1` (White) / `6`
(Black) from `Pawn.__init__`. -/
def pawnStartingRank (c : Color) : Int :=
  if c = .white then 1 else 6

/-- `Pawn.attacked_fields`, with its literal guards
`7 > self.y + self._forward > 0`, `self.x > 0`, `self.x < 7`. -/
def pawnAttackedFields (p : PieceSt) : List (Int × Int) :=
  let f := pawnForward p.color
  if 0 < p.y + f ∧ p.y + f < 7 then
    (if 0 < p.x then [(p.x - 1, p.y + f)] else []) ++
    (if p.x < 7 then [(p.x + 1, p.y + f)] else [])
  else []

/-- `can_attack_field` of each concrete piece class (King adjacency,
Knight's `{|dx|, |dy|} == {1, 2}`, mixin scans for the sliders, pawn
attacked fields), specialised to a single target square. -/
def canAttackField (o : Int → Int → Option PieceSt) (p : PieceSt)
    (tx ty : Int) : Bool :=
  match p.kind with
  | .king =>
      (p.x - tx).natAbs ≤ 1 ∧ (p.y - ty).natAbs ≤ 1 ∧
        (tx ≠ p.x ∨ ty ≠ p.y)
  | .knight =>
      ((tx - p.x).natAbs = 1 ∧ (ty - p.y).natAbs = 2) ∨
        ((tx - p.x).natAbs = 2 ∧ (ty - p.y).natAbs = 1)
  | .rook => (tx, ty) ∈ linePossibleMoves o p.color p.x p.y
  | .bishop => (tx, ty) ∈ diagPossibleMoves o p.color p.x p.y
  | .queen =>
      (tx, ty) ∈ diagPossibleMoves o p.color p.x p.y ∨
        (tx, ty) ∈ linePossibleMoves o p.color p.x p.y
  | .pawn => (tx, ty) ∈ pawnAttackedFields p

/-- Modelled from the spec: `Board.get_piece(fields=[...])` — the
multi-square read that `Pawn.get_possible_moves` and `King.can_castle`
invoke but neither Board draft accepts (their `get_piece` takes only
`(x, y)`); per §4.1's board contract it returns the occupant of each
listed square. -/
def getPieceFields (b : BoardSt) (l : List (Int × Int)) :
    List (Option PieceSt) :=
  l.map (fun s => occ b s.1 s.2)

/-- Modelled from the spec: `Board.move_piece(piece, target)` — called by
`Piece.set_position` and `Piece.check_move` but defined by neither Board
draft; per §4.1 it is the composed primitive "remove piece from origin,
place at target", i.e. `pick_piece` (clear the grid at the piece's
recorded coordinates) followed by `put_piece` (set the piece's
coordinates, write it to the target square). -/
def boardMovePiece (b : BoardSt) (i : Nat) (tx ty : Int) :
    Except Unit BoardSt :=
  match b.pieces i with
  | none => .error ()
  | some p =>
    let b1 : BoardSt := { b with fields := fupd b.fields p.x p.y none }
    .ok { b1 with
          pieces := pupd b1.pieces i (some { p with x := tx, y := ty }),
          fields := fupd b1.fields tx ty (some i) }

/-- `Board.remove_piece` (board.py): re-fetches the piece standing at the
argument's recorded coordinates, evicts it from its colour registry
(`set.remove`, raising if absent) and clears the square. -/
def removePiece (b : BoardSt) (p : PieceSt) : Except Unit BoardSt :=
  match b.fields p.x p.y with
  | none => .error ()      -- piece.color on None → AttributeError
  | some i =>
    match b.pieces i with
    | none => .error ()
    | some q =>
      if i ∈ registry b q.color then
        let b1 : BoardSt :=
          match q.color with
          | .white => { b with whitePieces := b.whitePieces.erase i }
          | .black => { b with blackPieces := b.blackPieces.erase i }
        .ok { b1 with fields := fupd b1.fields q.x q.y none }
      else .error ()       -- set.remove → KeyError


/-- The kind-dispatched `set_position` (pieces.py).  The base
`Piece.set_position` is `self._board.move_piece(self, x, y)` followed by
the (redundant, since `put_piece` already did it) coordinate assignment;
`King.set_position` first performs the castling rook relocation and
drops `_castle_available`; `Rook.set_position` drops `_can_castle`;
`Pawn.set_position` sets `_en_passant` on a double step and performs the
en-passant victim removal (whose `assert` failure is a runtime error).
The `fuel` bounds the King → rook `set_position` dispatch chain, which in
Python is unbounded recursion on arbitrary states. -/
def setPosition : Nat → BoardSt → Nat → Int → Int → Except Unit BoardSt
  | 0, _, _, _, _ => .error ()
  | fuel + 1, b, i, tx, ty =>
    match b.pieces i with
    | none => .error ()
    | some p =>
      match p.kind with
      | .king => do
          let b1 ←
            if p.castleAvailable ∧ (tx - p.x).natAbs = 2 ∧ ty - p.y = 0 then
              match (if tx - p.x = -2 then b.fields 0 p.y
                     else b.fields 7 p.y) with
              | none => .error ()   -- None.set_position → AttributeError
              | some rid =>
                  setPosition fuel b rid
                    (p.x + (if tx - p.x < 0 then -1 else 1)) p.y
            else .ok b
          match b1.pieces i with
          | none => .error ()
          | some p' =>
              let pieces' := pupd b1.pieces i (some { p' with castleAvailable := false })
              boardMovePiece { b1 with pieces := pieces' } i tx ty
      | .rook =>
          let pieces' := pupd b.pieces i (some { p with castleAvailable := false })
          boardMovePiece { b with pieces := pieces' } i tx ty
      | .pawn =>
          if (ty - p.y).natAbs = 2 then
            let pieces' := pupd b.pieces i (some { p with enPassant := true })
            boardMovePiece { b with pieces := pieces' } i tx ty
          else if (tx, ty) ∈ pawnAttackedFields p ∧ occ b tx ty = none then
            match occ b tx p.y with
            | some q =>
                if q.kind = .pawn ∧ q.enPassant then do
                  let b1 ← removePiece b q
                  boardMovePiece b1 i tx ty
                else .error ()   -- assert isinstance(pawn, Pawn) and pawn.en_passant
            | none => .error ()
          else boardMovePiece b i tx ty
      | _ => boardMovePiece b i tx ty

/-- `Piece.check_move`: simulate the candidate move on a copy of the
board (`copy.deepcopy`; our states are values, so the copy is the value
itself), via the modelled `Board.move_piece` followed by
`piece.set_position`, then report whether no opponent piece can attack
the mover's king on the simulated board (`StopIteration` when the
registry holds no king is a runtime error). -/
def checkMove (b : BoardSt) (i : Nat) (tx ty : Int) : Except Unit Bool :=
  match b.pieces i with
  | none => .error ()
  | some p =>
    match b.fields p.x p.y with
    | none => .error ()   -- board.move_piece(None, ...) → AttributeError
    | some j => do
        let b1 ← boardMovePiece b j tx ty
        let b2 ← setPosition 8 b1 j tx ty
        match b.pieces j with
        | none => .error ()
        | some pj =>
          match (getPieces b2 pj.color).find? (fun q => q.kind = .king) with
          | none => .error ()   -- next(...) → StopIteration
          | some kg =>
              .ok (!((getPieces b2 pj.color.opp).any
                      (fun q => canAttackField (occ b2) q kg.x kg.y)))

/-- `King.can_castle`: requires `_castle_available`, a castle-ready Rook
in the corner slot the source reads (`get_piece(0, y)` for long,
`get_piece(7, y)` for short), no piece on `path[1:]` and no opponent
attack on `path[:3]`, where `path = [(x, y) for x in range(self.x,
rook.x)]`. -/
def canCastle (b : BoardSt) (p : PieceSt) (long : Bool) : Bool :=
  p.castleAvailable &&
    match (if long then occ b 0 p.y else occ b 7 p.y) with
    | none => false
    | some r =>
        (r.kind = .rook && r.castleAvailable) &&
        (let path := (intRangeAsc p.x r.x).map (fun x => (x, p.y))
         !((getPieceFields b (path.drop 1)).any Option.isSome) &&
         !((getPieces b p.color.opp).any (fun q =>
             (path.take 3).any (fun s => canAttackField (occ b) q s.1 s.2))))

/-- The `{move for move in moves if self.check_move(*move)}` filter shared
by every `get_possible_moves`; a `check_move` exception propagates. -/
def filterCheckMoves (b : BoardSt) (i : Nat) :
    List (Int × Int) → Except Unit (List (Int × Int))
  | [] => .ok []
  | s :: rest => do
      let keep ← checkMove b i s.1 s.2
      let tail ← filterCheckMoves b i rest
      .ok (if keep then s :: tail else tail)

/-- `King.get_possible_moves`: the two castling targets (added unfiltered
whenever `can_castle` says so), plus the adjacent squares filtered by the
literal bounds `x >= 8 or y >= 8 or x < 0 or y < 0`, own-piece occupancy
and `check_move`. -/
def kingPossibleMoves (b : BoardSt) (i : Nat) (p : PieceSt) :
    Except Unit (List (Int × Int)) := do
  let castleMoves :=
    (if canCastle b p true then [(p.x - 2, p.y)] else []) ++
    (if canCastle b p false then [(p.x + 2, p.y)] else [])
  let cands := (([-1, 0, 1] : List Int).flatMap fun dx =>
                 ([-1, 0, 1] : List Int).map fun dy => (dx, dy))
  let adj ← cands.foldlM (fun (acc : List (Int × Int)) (d : Int × Int) =>
    if d.1 = 0 ∧ d.2 = 0 then pure acc
    else
      let x := p.x + d.1
      let y := p.y + d.2
      if 8 ≤ x ∨ 8 ≤ y ∨ x < 0 ∨ y < 0 then pure acc
      else
        match occ b x y with
        | some t =>
            if t.color = p.color then pure acc
            else do
              let k ← checkMove b i x y
              pure (if k then acc ++ [(x, y)] else acc)
        | none => do
            let k ← checkMove b i x y
            pure (if k then acc ++ [(x, y)] else acc)) []
  pure (castleMoves ++ adj)

/-- `Knight.get_possible_moves`: the eight jump candidates filtered by the
literal bounds `0 <= x < 8 and 0 <= y < 8`, occupancy and `check_move`. -/
def knightPossibleMoves (b : BoardSt) (i : Nat) (p : PieceSt) :
    Except Unit (List (Int × Int)) :=
  let cands :=
    (([p.x - 2, p.x + 2] : List Int).flatMap fun x =>
      ([p.y - 1, p.y + 1] : List Int).map fun y => (x, y)) ++
    (([p.x - 1, p.x + 1] : List Int).flatMap fun x =>
      ([p.y - 2, p.y + 2] : List Int).map fun y => (x, y))
  cands.foldlM (fun (acc : List (Int × Int)) (s : Int × Int) =>
    let free : Bool :=
      match occ b s.1 s.2 with
      | none => true
      | some t => t.color ≠ p.color
    if 0 ≤ s.1 ∧ s.1 < 8 ∧ 0 ≤ s.2 ∧ s.2 < 8 ∧ free = true then do
      let k ← checkMove b i s.1 s.2
      pure (if k then acc ++ [s] else acc)
    else pure acc) []

/-- `Pawn.get_possible_moves`: diagonal squares from `attacked_fields`
that hold an opponent piece or admit en passant (an empty diagonal with an
eligible opponent pawn beside the origin), the double step from
`_starting_rank` when both squares ahead are free, the single step when
the square ahead is free, all filtered by `check_move`. -/
def pawnPossibleMoves (b : BoardSt) (i : Nat) (p : PieceSt) :
    Except Unit (List (Int × Int)) :=
  let f := pawnForward p.color
  let capt := (pawnAttackedFields p).filter (fun pos =>
    match occ b pos.1 pos.2 with
    | none =>
        match occ b pos.1 p.y with
        | some q => q.kind = .pawn && q.color = p.color.opp && q.enPassant
        | none => false
    | some t => t.color = p.color.opp)
  let ahead := getPieceFields b [(p.x, p.y + f), (p.x, p.y + 2 * f)]
  let dbl := if p.y = pawnStartingRank p.color ∧ !(ahead.any Option.isSome)
             then [(p.x, p.y + 2 * f)] else []
  let sgl := if ahead.headD none = none then [(p.x, p.y + f)] else []
  filterCheckMoves b i (capt ++ dbl ++ sgl)

/-- The dynamic dispatch of `get_possible_moves`. -/
def getPossibleMoves (b : BoardSt) (i : Nat) :
    Except Unit (List (Int × Int)) :=
  match b.pieces i with
  | none => .error ()
  | some p =>
    match p.kind with
    | .king => kingPossibleMoves b i p
    | .queen =>
        filterCheckMoves b i
          (diagPossibleMoves (occ b) p.color p.x p.y ++
           linePossibleMoves (occ b) p.color p.x p.y)
    | .rook => filterCheckMoves b i (linePossibleMoves (occ b) p.color p.x p.y)
    | .bishop => filterCheckMoves b i (diagPossibleMoves (occ b) p.color p.x p.y)
    | .knight => knightPossibleMoves b i p
    | .pawn => pawnPossibleMoves b i p

/-- The error taxonomy of exceptions.py, plus `runtime` for any other
uncaught Python exception. -/
inductive MErr where
  | invalidField
  | noPiece
  | invalidPiece
  | illegalMove
  | runtime
deriving DecidableEq, Repr

/-- `Piece.move`: `set_position` when the target is among
`get_possible_moves`, else `IllegalMoveError`. -/
def pieceMove (b : BoardSt) (i : Nat) (tx ty : Int) : Except MErr BoardSt :=
  match getPossibleMoves b i with
  | .error _ => .error .runtime
  | .ok ms =>
      if (tx, ty) ∈ ms then
        match setPosition 8 b i tx ty with
        | .ok b' => .ok b'
        | .error _ => .error .runtime
      else .error .illegalMove

/-- `BoardManager.move_piece` (board.py): the raising `Board.get_piece`
range guard on the origin, the empty-origin and ownership checks, then
the piece's own move (the source writes `piece.move_piece(to_x, to_y)`;
`Piece` defines no such method — its movement entry point is
`Piece.move`, which is what we dispatch to), then `switch_player`. -/
def bmMovePiece (g : GameSt) (fx fy tx ty : Int) : Except MErr GameSt :=
  if fx ≤ 0 ∨ 8 < fx ∨ fy ≤ 0 ∨ 8 < fy then .error .invalidField
  else
    match g.board.fields fx fy with
    | none => .error .noPiece
    | some i =>
      match g.board.pieces i with
      | none => .error .runtime
      | some p =>
        if p.color ≠ g.playerToMove then .error .invalidPiece
        else
          match pieceMove g.board i tx ty with
          | .ok b' => .ok { board := b', playerToMove := g.playerToMove.opp }
          | .error e => .error e

/-- `True` (as a Bool) iff the square is on the 8×8 board, files and ranks
`1..8` — the convention of both Board drafts (`x <= 0 or x > 8 or y <= 0
or y > 8` rejected) and of the spec. -/
def inRangeB (x y : Int) : Bool :=
  1 ≤ x && x ≤ 8 && 1 ≤ y && y ≤ 8

/-- Direction sign of a displacement. -/
def dirOf (d : Int) : Int :=
  if d < 0 then -1 else if 0 < d then 1 else 0

/-- The squares strictly between two (ray-aligned) squares, walked one
step at a time from the origin. -/
def stepsBetween (x1 y1 x2 y2 : Int) : List (Int × Int) :=
  let n := max (x2 - x1).natAbs (y2 - y1).natAbs
  (List.range (n - 1)).map (fun k =>
    (x1 + ((k : Int) + 1) * dirOf (x2 - x1),
     y1 + ((k : Int) + 1) * dirOf (y2 - y1)))

/-- All squares strictly between origin and target are empty. -/
def rayClear (b : BoardSt) (x1 y1 x2 y2 : Int) : Bool :=
  (stepsBetween x1 y1 x2 y2).all (fun s => (occ b s.1 s.2).isNone)

/-- Modelled from the spec: the per-kind pure movement geometry of
`Piece.can_reach` (§4.2), which the source calls from `Game.move_piece`
and exercises in its piece tests but never defines.  King: the adjacent
squares; sliding pieces: a clear orthogonal/diagonal ray; Knight: the
`{1, 2}` displacement pair; Pawn: single step to an empty square, double
step from the pawn's starting rank (rank 2 for White, 7 for Black, per
§4.2 and example scenario 1) over two empty squares, and diagonal capture
onto an opponent piece or an en-passant-eligible empty square. -/
def reachGeom (b : BoardSt) (p : PieceSt) (tx ty : Int) : Bool :=
  match p.kind with
  | .king => (tx - p.x).natAbs ≤ 1 && (ty - p.y).natAbs ≤ 1
  | .knight =>
      ((tx - p.x).natAbs = 1 && (ty - p.y).natAbs = 2) ||
        ((tx - p.x).natAbs = 2 && (ty - p.y).natAbs = 1)
  | .rook => (tx = p.x || ty = p.y) && rayClear b p.x p.y tx ty
  | .bishop =>
      (tx - p.x).natAbs = (ty - p.y).natAbs && rayClear b p.x p.y tx ty
  | .queen =>
      (tx = p.x || ty = p.y || (tx - p.x).natAbs = (ty - p.y).natAbs) &&
        rayClear b p.x p.y tx ty
  | .pawn =>
      let f := pawnForward p.color
      let start : Int := if p.color = .white then 2 else 7
      (tx = p.x && ty = p.y + f && (occ b tx ty).isNone) ||
      (tx = p.x && p.y = start && ty = p.y + 2 * f &&
        (occ b p.x (p.y + f)).isNone && (occ b tx ty).isNone) ||
      ((tx - p.x).natAbs = 1 && ty = p.y + f &&
        (match occ b tx ty with
         | some t => t.color = p.color.opp
         | none =>
           match occ b tx p.y with
           | some q => q.kind = .pawn && q.color = p.color.opp && q.enPassant
           | none => false))

/-- Modelled from the spec: `Piece.can_reach` (§4.2) — shared
preconditions (target in range, else `InvalidFieldError`, modelled as
`none`; target distinct from origin; target not occupied by a same-colour
piece) and then the per-kind geometry.  Per §4.2 it is "pure movement
legality ignoring check-safety". -/
def canReach (b : BoardSt) (p : PieceSt) (tx ty : Int) : Option Bool :=
  if inRangeB tx ty then
    some (((!(tx = p.x && ty = p.y)) &&
           (match occ b tx ty with
            | some t => t.color ≠ p.color
            | none => true)) &&
          reachGeom b p tx ty)
  else none

/-- Modelled from the spec: `Piece.can_attack` (§4.2), called by
`Board.is_field_attacked` in both drafts but never defined — "identical
to `can_reach` for every kind except Pawn", whose attack squares are the
two forward diagonals regardless of occupancy.  The attack query is only
issued for in-range squares; out of range it reports `false`. -/
def canAttack (b : BoardSt) (p : PieceSt) (tx ty : Int) : Bool :=
  match p.kind with
  | .pawn =>
      inRangeB tx ty && ty = p.y + pawnForward p.color &&
        (tx - p.x).natAbs = 1
  | _ => ((canReach b p tx ty).getD false)

/-- `Board.is_field_attacked`: some piece of the given colour's registry
can attack the square. -/
def isFieldAttacked (b : BoardSt) (c : Color) (x y : Int) : Bool :=
  (getPieces b c).any (fun p => canAttack b p x y)

/-- `Board.is_king_in_check` (identical in both drafts).  For White the
source pairs `(BLACK, self.white_king)` and the query works whenever the
white king reference is set.  For Black the source pairs
`(self.white_pieces, self.black_king)`: `black_king` is never assigned by
`_fill_starting_board` (its `self.black_king == piece` is a comparison,
not an assignment), so `king.x` raises `AttributeError`; and even with a
king present the first argument is the white piece *set*, not a colour,
so the `assert color in (WHITE, BLACK)` of `is_field_attacked` fails.
Either way the Black query is a runtime error, modelled as `none`. -/
def isKingInCheck (b : BoardSt) : Color → Option Bool
  | .white =>
      match b.whiteKing with
      | none => none
      | some i =>
        match b.pieces i with
        | none => none
        | some k => some (isFieldAttacked b .black k.x k.y)
  | .black => none

/-- The exceptions `Game.move_piece` (chess.py) can raise.  `illegalMove`
is the declared `IllegalMoveError` of its docstring; the method can never
actually produce it: its `raise IllegalMoveError` is bare while
`IllegalMoveError.__init__` (exceptions.py) requires a positional
`message`, so the instantiation itself raises `TypeError`
(`typeError`). -/
inductive GErr where
  | invalidField
  | noPiece
  | invalidPiece
  | illegalMove
  | typeError
deriving DecidableEq, Repr

/-- `Board.put_piece`: set the piece's coordinates, then write it to the
target square. -/
def putPieceAt (b : BoardSt) (i : Nat) (p : PieceSt) (x y : Int) : BoardSt :=
  { b with pieces := pupd b.pieces i (some { p with x := x, y := y }),
           fields := fupd b.fields x y (some i) }

/-- `Game.move_piece` (chess.py): `pick_piece` on the origin (range guard,
then clear the square), `NoPieceError` on an empty origin, then inside the
`try` block the ownership check and `piece.can_reach(*target)`.  The
caught `InvalidPieceError` and `InvalidFieldError` put the piece back on
the origin before re-raising; the geometry-rejection path does NOT: its
`raise IllegalMoveError` is bare and `IllegalMoveError.__init__` requires
a `message`, so instantiating it raises `TypeError`, which the `except
(InvalidPieceError, IllegalMoveError, InvalidFieldError)` clause does not
catch — the `put_piece` restore is skipped and the origin stays cleared.
On success the piece is put on the target.  The result pairs the raised
error (if any) with the state the live board is left in; note that the
method never touches `player_to_move` and never removes a captured piece
from its registry. -/
def gameMovePiece (g : GameSt) (ox oy tx ty : Int) : Option GErr × GameSt :=
  if ox ≤ 0 ∨ 8 < ox ∨ oy ≤ 0 ∨ 8 < oy then (some .invalidField, g)
  else
    match g.board.fields ox oy with
    | none =>
        (some .noPiece,
         { g with board := { g.board with fields := fupd g.board.fields ox oy none } })
    | some i =>
      match g.board.pieces i with
      | none =>
          -- a grid entry dangling off the store cannot arise from the
          -- Python object model (the grid holds the piece objects
          -- themselves); treated like an empty square
          (some .noPiece,
           { g with board := { g.board with fields := fupd g.board.fields ox oy none } })
      | some p =>
        let b1 : BoardSt := { g.board with fields := fupd g.board.fields ox oy none }
        if p.color ≠ g.playerToMove then
          (some .invalidPiece, { g with board := putPieceAt b1 i p ox oy })
        else
          match canReach b1 p tx ty with
          | none => (some .invalidField, { g with board := putPieceAt b1 i p ox oy })
          | some false =>
              -- `raise IllegalMoveError` aborts inside the constructor with
              -- TypeError; uncaught, so no put-back: the origin stays cleared
              (some .typeError, { g with board := b1 })
          | some true => (none, { g with board := putPieceAt b1 i p tx ty })

/-- The back-rank piece classes of `_fill_starting_board`, in file
order. -/
def backRank : List Kind :=
  [.rook, .knight, .bishop, .queen, .king, .bishop, .knight, .rook]

def emptyBoard : BoardSt :=
  ⟨fun _ _ => none, fun _ => none, [], [], none, none⟩

/-- One iteration of the `_fill_starting_board` loop (identical in both
drafts): for file `x+1`, place the white back-rank piece (recording the
white king reference when the class is King), the white pawn on rank 2,
the black back-rank piece — the source's `self.black_king == piece` is a
comparison, not an assignment, so the black king reference is left
untouched — and the black pawn on rank 7.  Piece ids are `4x..4x+3`. -/
def fillStep (b : BoardSt) (x : Nat) : BoardSt :=
  let cls := backRank.getD x .rook
  let xi : Int := (x : Int) + 1
  let b1 : BoardSt :=
    { b with pieces := pupd b.pieces (4 * x) (some ⟨cls, .white, xi, 1, true, false⟩),
             whiteKing := if cls = .king then some (4 * x) else b.whiteKing,
             whitePieces := b.whitePieces ++ [4 * x],
             fields := fupd b.fields xi 1 (some (4 * x)) }
  let b2 : BoardSt :=
    { b1 with pieces := pupd b1.pieces (4 * x + 1) (some ⟨.pawn, .white, xi, 2, true, false⟩),
              whitePieces := b1.whitePieces ++ [4 * x + 1],
              fields := fupd b1.fields xi 2 (some (4 * x + 1)) }
  let b3 : BoardSt :=
    { b2 with pieces := pupd b2.pieces (4 * x + 2) (some ⟨cls, .black, xi, 8, true, false⟩),
              blackPieces := b2.blackPieces ++ [4 * x + 2],
              fields := fupd b2.fields xi 8 (some (4 * x + 2)) }
  { b3 with pieces := pupd b3.pieces (4 * x + 3) (some ⟨.pawn, .black, xi, 7, true, false⟩),
            blackPieces := b3.blackPieces ++ [4 * x + 3],
            fields := fupd b3.fields xi 7 (some (4 * x + 3)) }

/-- `Board.__init__` / `_fill_starting_board`: the freshly set up board. -/
def initialBoard : BoardSt :=
  (List.range 8).foldl fillStep emptyBoard

/-- `Game.__init__` / `BoardManager.__init__`: fresh board, White to
move. -/
def initGame : GameSt :=
  ⟨initialBoard, .white⟩

/-! ## Verified properties -/

/-- The error raised by a board.py pipeline call, if any. -/
def errOf {α : Type} : Except MErr α → Option MErr
  | .error e => some e
  | .ok _ => none

/-- Claim C2: rejection is NOT atomic on the IllegalMove path.  On the
fresh game, the geometry-illegal pawn request (5,2)→(5,5) is rejected,
but with `TypeError`, not `IllegalMoveError`: chess.py's bare
`raise IllegalMoveError` calls `IllegalMoveError()` although its
`__init__` (exceptions.py) requires a positional `message`, the resulting
`TypeError` is not in the `except (InvalidPieceError, IllegalMoveError,
InvalidFieldError)` clause, and the `put_piece(piece, *origin)` restore
is skipped — the origin square (5,2), which held pawn id 17 before the
call, is left cleared, while the picked pawn remains in the white
registry with its stale coordinates.  (The NoPiece, InvalidPiece and
InvalidField paths do put the piece back.) -/
theorem geometry_rejected_request_clears_origin :
    initGame.board.fields 5 2 = some 17 ∧
    (gameMovePiece initGame 5 2 5 5).1 = some GErr.typeError ∧
    (gameMovePiece initGame 5 2 5 5).2.board.fields 5 2 = none ∧
    (gameMovePiece initGame 5 2 5 5).2.board.pieces 17 =
      some ⟨.pawn, .white, 5, 2, true, false⟩ ∧
    17 ∈ (gameMovePiece initGame 5 2 5 5).2.board.whitePieces := by
  decide

/-- Claim C3 (counterexample): on the fresh board, a request from the
empty in-range origin (5,3) to the out-of-range target (9,9) fails with
`NoPieceError`, not `InvalidFieldError` — the target's range is not
checked before the empty-origin check. -/
theorem bm_target_out_of_range_not_invalid_field :
    errOf (bmMovePiece initGame 5 3 9 9) = some MErr.noPiece ∧
    MErr.noPiece ≠ MErr.invalidField := by decide

/-- Claim C3 (amended): for every game state, a request whose ORIGIN
square lies outside 1..8 fails with `InvalidFieldError`, before the
empty-origin, ownership and geometry checks run, independent of piece
kind or board contents. -/
theorem bm_origin_out_of_range_invalid_field (g : GameSt)
    (fx fy tx ty : Int) (h : fx ≤ 0 ∨ 8 < fx ∨ fy ≤ 0 ∨ 8 < fy) :
    bmMovePiece g fx fy tx ty = .error .invalidField := by
  unfold bmMovePiece
  rw [if_pos h]

/-- Witness for the amended C3: origin (9,1) on the fresh game. -/
theorem bm_origin_out_of_range_invalid_field_witness :
    ((9 : Int) ≤ 0 ∨ 8 < (9 : Int) ∨ (1 : Int) ≤ 0 ∨ 8 < (1 : Int)) ∧
    bmMovePiece initGame 9 1 5 5 = .error .invalidField :=
  ⟨by decide, bm_origin_out_of_range_invalid_field initGame 9 1 5 5 (by decide)⟩

/-- Claim C4: the Black check query is broken.  `_fill_starting_board`
writes `self.black_king == piece` (a comparison, not an assignment), so
the black king reference is still unset after setup; and the Black branch
of `is_king_in_check` passes `self.white_pieces` (a set, not a colour) to
`is_field_attacked`, so the query crashes for Black on every board, while
the White query works (and reports no check on the fresh board, where the
white king reference is piece id 16). -/
theorem is_king_in_check_black_crashes :
    initialBoard.blackKing = none ∧
    isKingInCheck initialBoard Color.black = none ∧
    (∀ b : BoardSt, isKingInCheck b Color.black = none) ∧
    initialBoard.whiteKing = some 16 ∧
    isKingInCheck initialBoard Color.white = some false :=
  ⟨by decide, by decide, fun _ => rfl, by decide, by decide⟩

/-- Claim C5: the sliding-piece ray scans run over coordinates 0..7
(`range(x+1, 8)`, `range(x-1, -1, -1)`) while the board squares are
1..8, so a rook on (4,5) of an empty board reaches (7,5) but not (8,5),
although the ray to (8,5) is clear — the repository's own test
`TestRookAttack.test_attack_reach` asserts `rook.can_attack(8, 5)`.  The
same holds diagonally: a bishop-squared scan from (5,5) reaches (7,7) but
never (8,8). -/
theorem sliding_scan_misses_file_rank_eight :
    ((7, 5) ∈ linePossibleMoves (fun _ _ => none) Color.white 4 5) ∧
    ((8, 5) ∉ linePossibleMoves (fun _ _ => none) Color.white 4 5) ∧
    ((4, 1) ∈ linePossibleMoves (fun _ _ => none) Color.white 4 5) ∧
    canAttackField (fun _ _ => none) ⟨.rook, .white, 4, 5, true, false⟩ 8 5 = false ∧
    ((7, 7) ∈ diagPossibleMoves (fun _ _ => none) Color.white 5 5) ∧
    ((8, 8) ∉ diagPossibleMoves (fun _ _ => none) Color.white 5 5) := by
  decide

/-- Claim C6: `Game.move_piece` (chess.py) never touches
`player_to_move` — the accepted fresh-board pawn move (5,2)→(5,4) leaves
White to move, and the side to move is preserved by every call, accepted
or rejected (the `switch_player` of the board.py draft has no counterpart
in chess.py). -/
theorem game_move_piece_never_switches_player :
    (gameMovePiece initGame 5 2 5 4).1 = none ∧
    (gameMovePiece initGame 5 2 5 4).2.playerToMove = Color.white ∧
    ∀ (g : GameSt) (ox oy tx ty : Int),
      ((gameMovePiece g ox oy tx ty).2).playerToMove = g.playerToMove := by
  refine ⟨by decide, by decide, ?_⟩
  intro g ox oy tx ty
  unfold gameMovePiece
  split
  · rfl
  · split
    · rfl
    · split
      · rfl
      · split
        · rfl
        · dsimp only
          split <;> rfl

/-- King-walk trace for C1: 1. e2–e4, then the white king marches
e1–e2–e3–f4–f5–f6 (chess.py never hands the turn to Black, so every
request is White's). -/
def kw1 : Option GErr × GameSt := gameMovePiece initGame 5 2 5 4

def kw2 : Option GErr × GameSt := gameMovePiece kw1.2 5 1 5 2

def kw3 : Option GErr × GameSt := gameMovePiece kw2.2 5 2 5 3

def kw4 : Option GErr × GameSt := gameMovePiece kw3.2 5 3 6 4

def kw5 : Option GErr × GameSt := gameMovePiece kw4.2 6 4 6 5

def kw6 : Option GErr × GameSt := gameMovePiece kw5.2 6 5 6 6

/-- Claim C1: `Game.move_piece` (chess.py) validates only origin, ownership
and movement geometry — it never consults the check-safety validator
(`Piece.check_move`).  Walking the white king to f6 = (6,6), a square
attacked by the untouched black pawn on e7 = (5,7), every request is
accepted, and the check query for the mover's colour reports check on the
resulting board. -/
theorem game_accepts_move_leaving_mover_in_check :
    (kw1.1 = none ∧ kw2.1 = none ∧ kw3.1 = none ∧
     kw4.1 = none ∧ kw5.1 = none ∧ kw6.1 = none) ∧
    kw6.2.playerToMove = Color.white ∧
    isKingInCheck kw6.2.board Color.white = some true := by
  decide

/-- Claim C7: on the fresh board the white e-pawn (piece id 17, standing
on (5,2)) has `get_possible_moves` = {(5,3)} although both (5,3) and
(5,4) are free: `Pawn._starting_rank` is the 0-based constant 1 while the
board places white pawns on rank 2, so `self.y == self._starting_rank` is
false and the double step is never offered; the full entry point rejects
(5,2)→(5,4) with `IllegalMoveError`. -/
theorem fresh_pawn_double_step_rejected :
    initialBoard.pieces 17 = some ⟨.pawn, .white, 5, 2, true, false⟩ ∧
    occ initialBoard 5 3 = none ∧
    occ initialBoard 5 4 = none ∧
    (getPossibleMoves initialBoard 17).toOption = some [(5, 3)] ∧
    errOf (bmMovePiece initGame 5 2 5 4) = some MErr.illegalMove := by
  decide

/-- Fixture for C8: white pawn id 0 on (5,5), black pawn id 1 on (4,7),
white king id 2 on (5,1), black king id 3 on (5,8). -/
def epBoard0 : BoardSt :=
  { fields := fun x y =>
      if x = 5 ∧ y = 5 then some 0
      else if x = 4 ∧ y = 7 then some 1
      else if x = 5 ∧ y = 1 then some 2
      else if x = 5 ∧ y = 8 then some 3
      else none,
    pieces := fun i =>
      if i = 0 then some ⟨.pawn, .white, 5, 5, true, false⟩
      else if i = 1 then some ⟨.pawn, .black, 4, 7, true, false⟩
      else if i = 2 then some ⟨.king, .white, 5, 1, true, false⟩
      else if i = 3 then some ⟨.king, .black, 5, 8, true, false⟩
      else none,
    whitePieces := [0, 2], blackPieces := [1, 3],
    whiteKing := some 2, blackKing := some 3 }

/-- Ply 1: the black pawn double-steps (4,7)→(4,5), setting its
`_en_passant` flag. -/
def epB1 : BoardSt := (setPosition 8 epBoard0 1 4 5).toOption.getD epBoard0

/-- Ply 2: the white king moves (5,1)→(4,1). -/
def epB2 : BoardSt := (setPosition 8 epB1 2 4 1).toOption.getD epB1

/-- Ply 3: the black king moves (5,8)→(4,8). -/
def epB3 : BoardSt := (setPosition 8 epB2 3 4 8).toOption.getD epB2

/-- Claim C8: `Pawn._en_passant` is set by the double step and cleared
nowhere in the source, so the eligibility never lapses: two full plies
after Black's (4,7)→(4,5) double step the flag is still set and the white
pawn on (5,5) is still offered the en-passant capture (4,6) by
`get_possible_moves`. -/
theorem en_passant_eligibility_never_lapses :
    (setPosition 8 epBoard0 1 4 5).isOk = true ∧
    epB1.pieces 1 = some ⟨.pawn, .black, 4, 5, true, true⟩ ∧
    (setPosition 8 epB1 2 4 1).isOk = true ∧
    (setPosition 8 epB2 3 4 8).isOk = true ∧
    epB3.pieces 1 = some ⟨.pawn, .black, 4, 5, true, true⟩ ∧
    (getPossibleMoves epB3 0).toOption = some [(4, 6), (5, 6)] := by
  decide

/-- Fixture for C9 (coordinates in pieces.py's own 0-based frame, where
`can_castle`'s corner reads `get_piece(0, y)` / `get_piece(7, y)` land on
the corners): white king id 0 on (4,0) and white rook id 1 on (0,0), both
castle-eligible, a white knight id 2 on (1,0) strictly between them, a
black rook id 3 on (3,7) attacking the king's transit square (3,0) down
the open file, and the black king id 4 on (7,7). -/
def c9Board : BoardSt :=
  { fields := fun x y =>
      if x = 4 ∧ y = 0 then some 0
      else if x = 0 ∧ y = 0 then some 1
      else if x = 1 ∧ y = 0 then some 2
      else if x = 3 ∧ y = 7 then some 3
      else if x = 7 ∧ y = 7 then some 4
      else none,
    pieces := fun i =>
      if i = 0 then some ⟨.king, .white, 4, 0, true, false⟩
      else if i = 1 then some ⟨.rook, .white, 0, 0, true, false⟩
      else if i = 2 then some ⟨.knight, .white, 1, 0, true, false⟩
      else if i = 3 then some ⟨.rook, .black, 3, 7, true, false⟩
      else if i = 4 then some ⟨.king, .black, 7, 7, true, false⟩
      else none,
    whitePieces := [0, 1, 2], blackPieces := [3, 4],
    whiteKing := some 0, blackKing := some 4 }

/-- Claim C9: for the queenside castle `path = [(x, y) for x in
range(self.x, rook.x)]` is empty (the rook file is below the king file),
so `can_castle` checks neither the squares between king and rook nor the
attacked status of the king's origin/transit/destination: it accepts the
castle with a knight standing on (1,0) between king (4,0) and rook (0,0)
and with a black rook attacking the transit square (3,0); the castle
target (2,0) is offered by `get_possible_moves` (castling targets are
also never `check_move`-filtered), and performing it relocates king to
(2,0) and rook to the crossed square (3,0) with the knight still in
between. -/
theorem queenside_castle_skips_path_and_attack_checks :
    canCastle c9Board ⟨.king, .white, 4, 0, true, false⟩ true = true ∧
    occ c9Board 1 0 = some ⟨.knight, .white, 1, 0, true, false⟩ ∧
    canAttackField (occ c9Board) ⟨.rook, .black, 3, 7, true, false⟩ 3 0 = true ∧
    (getPossibleMoves c9Board 0).toOption = some [(2, 0), (4, 1), (5, 0), (5, 1)] ∧
    ((setPosition 8 c9Board 0 2 0).toOption.map
      (fun b => (b.fields 2 0, b.fields 3 0, b.fields 1 0, b.fields 0 0, b.fields 4 0))) =
      some (some 0, some 1, some 2, none, none) := by
  decide

/-- Capture trace for C10: the white e-pawn (id 17) marches e2–e4–e5–e6
and then captures the black d-pawn (id 15) on (4,7). -/
def cap1 : Option GErr × GameSt := gameMovePiece initGame 5 2 5 4

def cap2 : Option GErr × GameSt := gameMovePiece cap1.2 5 4 5 5

def cap3 : Option GErr × GameSt := gameMovePiece cap2.2 5 5 5 6

def cap4 : Option GErr × GameSt := gameMovePiece cap3.2 5 6 4 7

/-- Claim C10: `Game.move_piece` (chess.py) commits a capture by simply
overwriting the target square with `put_piece`; it never calls
`Board.remove_piece`, so the captured black pawn (id 15) stays in the
black registry with its stale coordinates (4,7) — the square it no longer
occupies (the white pawn id 17 stands there) — and still answers attack
queries, here claiming to attack (5,6). -/
theorem captured_piece_stays_in_registry :
    (cap1.1 = none ∧ cap2.1 = none ∧ cap3.1 = none ∧ cap4.1 = none) ∧
    cap4.2.board.fields 4 7 = some 17 ∧
    cap4.2.board.pieces 17 = some ⟨.pawn, .white, 4, 7, true, false⟩ ∧
    cap4.2.board.pieces 15 = some ⟨.pawn, .black, 4, 7, true, false⟩ ∧
    15 ∈ cap4.2.board.blackPieces ∧
    canAttack cap4.2.board ⟨.pawn, .black, 4, 7, true, false⟩ 5 6 = true := by
  decide

end PyChess
